import Mathlib

/-!
Shallow embedding of the lapce-dlang plugin bootstrap (src/src/main.rs) and
verification of the specification claims about it.

The single source file defines one function, `initialize`, which either
short-circuits to a user-supplied server path, or drives a fetch/install
pipeline: fetch release metadata from GitHub, resolve the platform, read and
rewrite a version marker file, decide whether to (re)install, download and
extract the archive, and finally start the language server.

External collaborators (the `semver`, `lapce_plugin`, `url`, `zip`, `tar`
crates, the filesystem and the network) are not part of this repository;
they are modelled from the interfaces the spec describes, as explicit inputs
in an environment record.  The pure logic (JSON option traversal, version
comparison, platform resolution, URL construction, the update decision and
the order of effects) is translated from the source.
-/

deriving instance DecidableEq for Except

namespace LapceD

/-! ### JSON values (model of serde_json::Value as the code uses it) -/

/-- Model of `serde_json::Value`: the code only uses `get` (object field
lookup), `as_array` and `as_str`. -/
inductive Json where
  | null
  | bool (b : Bool)
  | num (n : Int)
  | str (s : String)
  | arr (xs : List Json)
  | obj (fields : List (String × Json))
deriving Inhabited

/-- `Value::get(key)`: field lookup on an object, `None` on other variants. -/
def Json.get : Json → String → Option Json
  | .obj fs, k => fs.lookup k
  | _, _ => none

/-- `Value::as_str`. -/
def Json.asStr : Json → Option String
  | .str s => some s
  | _ => none

/-- `Value::as_array`. -/
def Json.asArray : Json → Option (List Json)
  | .arr xs => some xs
  | _ => none

/-! ### Semantic versions

Modelled from the spec: the external `semver` crate is not part of this
repository.  The spec (sections 3 and 4.3) describes it as parsing a
semantic version `major.minor.patch` with optional pre-release and build
metadata, ordered by SemVer precedence, and reads the literal `"v0.0.0"`
of the source as denoting the baseline version 0.0.0 (so the parser below
accepts an optional leading `v`). -/

/-- A pre-release identifier: numeric identifiers compare numerically and
are lower than alphanumeric ones, which compare lexically. -/
inductive PreId where
  | num (n : Nat)
  | alpha (s : String)
deriving DecidableEq, Repr

/-- A parsed semantic version.  Build metadata is discarded at parse time
(it never participates in precedence). -/
structure Version where
  major : Nat
  minor : Nat
  patch : Nat
  pre : List PreId
deriving DecidableEq, Repr

/-- The baseline version 0.0.0. -/
def Version.baseline : Version := ⟨0, 0, 0, []⟩

/-- Strict order on pre-release identifiers (SemVer precedence rule 11.4). -/
def PreId.ltb : PreId → PreId → Bool
  | .num a, .num b => a < b
  | .num _, .alpha _ => true
  | .alpha _, .num _ => false
  | .alpha a, .alpha b => a < b

/-- Strict order on two nonempty pre-release identifier lists: elementwise,
a strict prefix being smaller. -/
def preListLtb : List PreId → List PreId → Bool
  | [], [] => false
  | [], _ :: _ => true
  | _ :: _, [] => false
  | x :: xs, y :: ys => if x = y then preListLtb xs ys else PreId.ltb x y

/-- Strict order on versions: lexicographic on (major, minor, patch), then a
version without pre-release identifiers is greater than one with them. -/
def Version.ltb (a b : Version) : Bool :=
  if a.major ≠ b.major then a.major < b.major
  else if a.minor ≠ b.minor then a.minor < b.minor
  else if a.patch ≠ b.patch then a.patch < b.patch
  else match a.pre, b.pre with
    | [], _ => false
    | _ :: _, [] => true
    | x :: xs, y :: ys => preListLtb (x :: xs) (y :: ys)

/-- Split a character list at every occurrence of `sep`. -/
def splitOnChar (sep : Char) : List Char → List (List Char)
  | [] => [[]]
  | c :: cs =>
    let rest := splitOnChar sep cs
    if c = sep then [] :: rest
    else match rest with
      | [] => [[c]]
      | r :: rs => (c :: r) :: rs

/-- Characters allowed in pre-release and build identifiers. -/
def identChar (c : Char) : Bool :=
  c.isDigit || c.isAlpha || c = '-'

/-- Parse a numeric identifier: nonempty, all digits, no leading zero. -/
def parseNumericId (cs : List Char) : Except String Nat :=
  if cs.isEmpty then .error "empty identifier"
  else if !cs.all Char.isDigit then .error "invalid digit"
  else if cs.length > 1 && cs.head? = some '0' then .error "leading zero"
  else .ok (cs.foldl (fun n c => 10 * n + (c.toNat - 48)) 0)

/-- Parse one pre-release identifier. -/
def parsePreId (cs : List Char) : Except String PreId :=
  if cs.isEmpty then .error "empty identifier"
  else if !cs.all identChar then .error "invalid character"
  else if cs.all Char.isDigit then
    if cs.length > 1 && cs.head? = some '0' then .error "leading zero"
    else .ok (.num (cs.foldl (fun n c => 10 * n + (c.toNat - 48)) 0))
  else .ok (.alpha (String.mk cs))

/-- Parse the dot-separated pre-release section. -/
def parsePre (cs : List Char) : Except String (List PreId) :=
  (splitOnChar '.' cs).mapM parsePreId

/-- Check the build-metadata section: nonempty dot-separated identifiers. -/
def checkBuild (cs : List Char) : Except String Unit :=
  if (splitOnChar '.' cs).all (fun chunk => !chunk.isEmpty && chunk.all identChar)
  then .ok () else .error "invalid build metadata"

/-- Parse a semantic version string.

Modelled from the spec: this stands for `semver::Version::parse` of the
external `semver` crate.  Grammar: optional leading `v` (the source
initialises the installed version from the literal `"v0.0.0"`, which the
spec reads as the baseline version 0.0.0), then
`major.minor.patch[-pre][+build]` with numeric identifiers free of leading
zeros; build metadata is validated and discarded. -/
def Version.parse (s : String) : Except String Version :=
  let cs := s.toList
  let cs := match cs with
    | 'v' :: rest => rest
    | _ => cs
  -- split off build metadata at the first '+'
  let core_pre := cs.takeWhile (fun c => c ≠ '+')
  let build := cs.drop (core_pre.length + 1)
  let hasBuild := core_pre.length < cs.length
  -- split off the pre-release section at the first '-'
  let core := core_pre.takeWhile (fun c => c ≠ '-')
  let preSec := core_pre.drop (core.length + 1)
  let hasPre := core.length < core_pre.length
  match splitOnChar '.' core with
  | [ma, mi, pa] => do
    let major ← parseNumericId ma
    let minor ← parseNumericId mi
    let patch ← parseNumericId pa
    let pre ← if hasPre then parsePre preSec else .ok []
    if hasBuild then checkBuild build else .ok ()
    .ok ⟨major, minor, patch, pre⟩
  | _ => .error "expected three version components"

/-! ### Release metadata (struct GHAsset / GHReleaseAsset, lines 27-41)

The JSON decoding itself is done by serde; the environment below supplies
its result directly, per the spec: transport-level fetch and JSON parsing
are consumed as a capability. -/

/-- One release asset descriptor (struct GHReleaseAsset). -/
structure GHReleaseAsset where
  id : Int
  name : String
  size : Int
  download_count : Int
  browser_download_url : String
  created_at : String
deriving DecidableEq

/-- The decoded release metadata (struct GHAsset). -/
structure GHAsset where
  tag_name : String
  assets : List GHReleaseAsset
deriving DecidableEq

/-- An HTTP response for the archive GET: the status code, and whether
reading the body out succeeds.  The body bytes themselves are only handed
to the extractors, whose results the environment supplies directly. -/
structure HttpResp where
  status_code : Nat
  body_read : Except String Unit
deriving DecidableEq

/-- The request parameters: the code only reads
`params.initialization_options`. -/
structure Params where
  initialization_options : Option Json

/-- The external world of one `initialize` run: results of every
environment query, network call and filesystem probe the code can make.
Each field models one collaborator named in the spec. -/
structure Env where
  /-- Decoded result of the metadata GET chain (lines 85-91). -/
  metadata : Except String GHAsset
  /-- `VoltEnvironment::architecture()` (line 94). -/
  architecture : Except String String
  /-- `VoltEnvironment::operating_system()` (lines 101 and 110). -/
  operating_system : Except String String
  /-- `VoltEnvironment::uri()` (line 118). -/
  uri : Except String String
  /-- Whether the working directory exists (line 125). -/
  dir_exists : Bool
  /-- Contents of `version.txt` when it exists (lines 132-135). -/
  marker : Option String
  /-- Result of the archive GET (line 162). -/
  archive : Except String HttpResp
  /-- Whether `ZipArchive::new` succeeds (line 177; failure panics). -/
  zip_open_ok : Bool
  /-- Result of `archive.extract` / `archive.unpack` (lines 178, 182). -/
  extract_ok : Except String Unit

/-! ### Observable effects -/

/-- One observable effect of a run, in the order performed. -/
inductive Event where
  /-- `PLUGIN_RPC.stderr` (line 82). -/
  | stderr (s : String)
  /-- The metadata GET to the fixed releases URL (line 87). -/
  | fetchMetadata
  /-- The `architecture()` environment query (line 94). -/
  | queryArch
  /-- An `operating_system()` environment query (lines 101, 110). -/
  | queryOs
  /-- The `uri()` environment query (line 118). -/
  | queryUri
  /-- `create_dir_all` on the working directory (line 126). -/
  | createDir
  /-- The ledger read resolved the installed version (lines 131-136):
  the parsed marker contents, or the baseline when the file is absent. -/
  | readLedger (v : Version)
  /-- `fs::write` of the marker file with the given contents (130, 139). -/
  | writeLedger (s : String)
  /-- The update decision was assigned (lines 127, 142). -/
  | decide (b : Bool)
  /-- The archive GET to the given URL (line 162). -/
  | download (url : String)
  /-- An extraction into the working directory was attempted (178, 182). -/
  | extract
  /-- `PLUGIN_RPC.start_lsp` with executable locator and args (69, 190). -/
  | emit (path : String) (args : List String)
deriving DecidableEq

/-- The shape of an event, with its data erased. -/
inductive EKind where
  | stderrK | fetchK | archK | osK | uriK | mkdirK
  | readK | writeK | decideK | downloadK | extractK | emitK
deriving DecidableEq, Repr

/-- Erase an event to its shape. -/
def Event.kind : Event → EKind
  | .stderr _ => .stderrK
  | .fetchMetadata => .fetchK
  | .queryArch => .archK
  | .queryOs => .osK
  | .queryUri => .uriK
  | .createDir => .mkdirK
  | .readLedger _ => .readK
  | .writeLedger _ => .writeK
  | .decide _ => .decideK
  | .download _ => .downloadK
  | .extract => .extractK
  | .emit _ _ => .emitK

/-- How a run ends: `Ok(())`, `Err(e)` with the error message, or a panic
(the zip-open `expect`, line 177). -/
inductive Outcome where
  | ok
  | err (msg : String)
  | panicked (msg : String)
deriving DecidableEq, Repr

/-- Everything observable about one run: how it ended, the effects in
order, and the final contents of the version marker file. -/
structure RunResult where
  outcome : Outcome
  events : List Event
  marker : Option String

/-! ### Option traversal (lines 44-80) -/

/-- Line 44: the fixed base argument list. -/
def base_args : List String := ["--require", "d"]

/-- The fixed language identifier (line 25). -/
def LANGUAGE_ID : String := "d"

/-- `options.get("lsp")` under the two `if let`s (lines 53-54). -/
def lsp_options (params : Params) : Option Json :=
  params.initialization_options.bind (fun o => o.get "lsp")

/-- Lines 55-62: the string entries of `lsp.serverArgs`, in order;
non-string entries are skipped, a missing or non-array field yields
nothing. -/
def extra_args (params : Params) : List String :=
  match lsp_options params with
  | none => []
  | some lsp =>
    match lsp.get "serverArgs" with
    | none => []
    | some args =>
      match args.asArray with
      | none => []
      | some xs => xs.filterMap Json.asStr

/-- The argument vector handed to `start_lsp` on every path. -/
def server_args (params : Params) : List String := base_args ++ extra_args params

/-- Lines 66-68: the override server path, when `lsp.serverPath` is a
non-empty string. -/
def override_path (params : Params) : Option String :=
  match lsp_options params with
  | none => none
  | some lsp =>
    match lsp.get "serverPath" with
    | none => none
    | some sp =>
      match sp.asStr with
      | none => none
      | some s => if s.isEmpty then none else some s

/-! ### URL model

Modelled from the spec: the `url` crate is an external collaborator.  A URL
is represented by its string; parsing succeeds exactly when the string
starts with a scheme, and joining a plain file name onto a base URL appends
it after the last slash (replacing the final segment when the base does not
end in a slash). -/

/-- Whether the string starts with `<scheme>:` (a letter followed by
letters, digits, `+`, `-` or `.`). -/
def schemeOk (s : String) : Bool :=
  match s.toList.takeWhile (fun c => c != ':') with
  | [] => false
  | c :: rest =>
    c.isAlpha && rest.all (fun d => d.isAlpha || d.isDigit || d == '+' || d == '-' || d == '.')
      && (s.toList.contains ':')

/-- Model of `Url::parse`: the string itself when it carries a scheme. -/
def Url.parse (s : String) : Except String String :=
  if schemeOk s then .ok s else .error "relative URL without a base"

/-- Model of `Url::join` for the plain file names used here. -/
def Url.join (base file : String) : String :=
  let cs := base.toList
  let keep := cs.length - (cs.reverse.takeWhile (fun c => c != '/')).length
  String.mk (cs.take keep) ++ file

/-! ### Platform resolution (lines 93-115) -/

/-- Lines 94-98: map the raw architecture query result to the release
naming token; anything else is an unsupported-architecture error. -/
def resolve_arch (r : Except String String) : Except String String :=
  if r = .ok "x86_64" then .ok "x86_64"
  else if r = .ok "aarch64" then .ok "arm64"
  else .error "Unsupported architecture"

/-- Lines 101-106: map the raw operating-system query result to the release
naming token; anything else is an unsupported-platform error. -/
def resolve_os (r : Except String String) : Except String String :=
  if r = .ok "macos" then .ok "macos"
  else if r = .ok "linux" then .ok "linux"
  else if r = .ok "windows" then .ok "windows"
  else .error "Unsupported platform"

/-- Lines 110-115: the executable file name, `.exe`-suffixed exactly when
the (second) operating-system query returns windows. -/
def exec_file_of (r : Except String String) : String :=
  if r = .ok "windows" then "serve-d.exe" else "serve-d"

/-! ### Ledger and update decision (lines 122-143) -/

/-- Result of the ledger block: its effects, the marker file contents
afterwards, and either the `should_update` flag or the error that aborted
the block. -/
structure LedgerResult where
  events : List Event
  marker : Option String
  outcome : Except String Bool

/-- Lines 122-143, translated arm by arm.  `installed0` is the baseline
parsed on line 45; `marker` the current `version.txt` contents; `tag` the
fetched `asset.tag_name`.

* directory absent: create it, set `should_update = true`, write the tag.
* directory present: parse the marker if the file exists (a parse failure
  aborts before anything is written), write the tag, then set
  `should_update` to `installed > remote` (a tag parse failure aborts after
  the write). -/
def ledger_step (installed0 : Version) (dir_exists : Bool) (marker : Option String)
    (tag : String) : LedgerResult :=
  if !dir_exists then
    ⟨[.createDir, .decide true, .writeLedger tag], some tag, .ok true⟩
  else
    let read : Except String Version :=
      match marker with
      | some s => Version.parse s
      | none => .ok installed0
    match read with
    | .error e => ⟨[], marker, .error e⟩
    | .ok installed =>
      match Version.parse tag with
      | .error e => ⟨[.readLedger installed, .writeLedger tag], some tag, .error e⟩
      | .ok remote =>
        ⟨[.readLedger installed, .writeLedger tag, .decide (Version.ltb remote installed)],
          some tag, .ok (Version.ltb remote installed)⟩

/-! ### Download URL and archive handling (lines 145-186) -/

/-- Lines 146-150: archive extension, zip exactly on windows. -/
def ext_of (os_name : String) : String :=
  if os_name = "windows" then "zip" else "tar.xz"

/-- Lines 152-159: the deterministic download URL. -/
def download_url (tag arch os : String) : String :=
  "https://github.com/Pure-D/serve-d/releases/download/" ++ tag ++ "/serve-d_"
    ++ tag ++ "-" ++ arch ++ "-" ++ os ++ "." ++ ext_of os

/-- Result of the download-and-extract block. -/
structure FetchResult where
  events : List Event
  outcome : Outcome

/-- Lines 161-185: GET the archive; a non-200 status is a fatal error
carrying the status code; then dispatch extraction on the extension
(`zip` open failure panics via `expect`; extraction failures are errors;
the unreachable fall-through arm does nothing). -/
def fetch_install (env : Env) (url ext : String) : FetchResult :=
  match env.archive with
  | .error e => ⟨[.download url], .err e⟩
  | .ok resp =>
    if resp.status_code ≠ 200 then
      ⟨[.download url], .err ("Fetching archive failed with error " ++ toString resp.status_code)⟩
    else
      match resp.body_read with
      | .error e => ⟨[.download url], .err e⟩
      | .ok _ =>
        if ext = "zip" then
          if !env.zip_open_ok then ⟨[.download url], .panicked "Failed to open zip archive"⟩
          else
            match env.extract_ok with
            | .error e => ⟨[.download url, .extract], .err e⟩
            | .ok _ => ⟨[.download url, .extract], .ok⟩
        else if ext = "tar.xz" then
          match env.extract_ok with
          | .error e => ⟨[.download url, .extract], .err e⟩
          | .ok _ => ⟨[.download url, .extract], .ok⟩
        else ⟨[.download url], .ok⟩

/-! ### The whole run (fn initialize, lines 43-198) -/

/-- The embedding of `fn initialize`: from the request parameters and the
environment, the outcome, the ordered effects, and the final marker
contents. -/
def pluginInit (params : Params) (env : Env) : RunResult :=
  match Version.parse "v0.0.0" with
  | .error e => ⟨.err e, [], env.marker⟩
  | .ok installed0 =>
    let args := server_args params
    match override_path params with
    | some p =>
      match Url.parse ("urn:" ++ p) with
      | .error e => ⟨.err e, [], env.marker⟩
      | .ok u => ⟨.ok, [.emit u args], env.marker⟩
    | none =>
      let ev0 := [Event.stderr "AAAAAAAA", Event.fetchMetadata]
      match env.metadata with
      | .error e => ⟨.err e, ev0, env.marker⟩
      | .ok asset =>
        let ev1 := ev0 ++ [Event.queryArch]
        match resolve_arch env.architecture with
        | .error e => ⟨.err e, ev1, env.marker⟩
        | .ok arch_name =>
          let ev2 := ev1 ++ [Event.queryOs]
          match resolve_os env.operating_system with
          | .error e => ⟨.err e, ev2, env.marker⟩
          | .ok os_name =>
            let exec_file := exec_file_of env.operating_system
            let ev3 := ev2 ++ [Event.queryOs, Event.queryUri]
            match env.uri with
            | .error e => ⟨.err e, ev3, env.marker⟩
            | .ok volt_uri =>
              match Url.parse volt_uri with
              | .error e => ⟨.err e, ev3, env.marker⟩
              | .ok base =>
                let server_path := Url.join base exec_file
                let led := ledger_step installed0 env.dir_exists env.marker asset.tag_name
                let ev4 := ev3 ++ led.events
                match led.outcome with
                | .error e => ⟨.err e, ev4, led.marker⟩
                | .ok shouldUpdate =>
                  if shouldUpdate then
                    let fr := fetch_install env
                      (download_url asset.tag_name arch_name os_name) (ext_of os_name)
                    let ev5 := ev4 ++ fr.events
                    match fr.outcome with
                    | .ok => ⟨.ok, ev5 ++ [.emit server_path args], led.marker⟩
                    | o => ⟨o, ev5, led.marker⟩
                  else
                    ⟨.ok, ev4 ++ [.emit server_path args], led.marker⟩

/-! ### Sample inputs used by concrete witnesses -/

/-- A sample environment: x86_64 linux, fresh working directory, remote tag
1.0.0, archive download and extraction succeed. -/
def env0 : Env :=
  { metadata := .ok ⟨"1.0.0", []⟩
    architecture := .ok "x86_64"
    operating_system := .ok "linux"
    uri := .ok "file:///plugins/d/"
    dir_exists := false
    marker := none
    archive := .ok ⟨200, .ok ()⟩
    zip_open_ok := true
    extract_ok := .ok () }

/-- Initialization options carrying a server-path override and one extra
string argument next to a non-string entry. -/
def paramsOverride : Params :=
  ⟨some (.obj [("lsp", .obj [("serverPath", .str "/usr/bin/serve-d"),
    ("serverArgs", .arr [.str "--extra", .num 3])])])⟩

/-- `env0` with an existing working directory recording version 2.0.0, so
the inverted comparison 2.0.0 > 1.0.0 decides an update. -/
def envElse : Env := { env0 with dir_exists := true, marker := some "2.0.0" }

/-- `env0` with an existing working directory whose marker file holds text
that is not a semantic version. -/
def envBadMarker : Env := { env0 with dir_exists := true, marker := some "not a version" }

/-- `envElse` with the archive GET answering 404. -/
def env404 : Env := { envElse with archive := .ok ⟨404, .ok ()⟩ }

/-- The boolean subsequence test used to state the pipeline ordering. -/
def isSubseq : List EKind → List EKind → Bool
  | [], _ => true
  | _ :: _, [] => false
  | x :: xs, y :: ys => if x = y then isSubseq xs ys else isSubseq (x :: xs) ys

/-- The shapes of a completed fresh-directory run, in order; any run omits
some of them but never reorders them. -/
def canonFresh : List EKind :=
  [.stderrK, .fetchK, .archK, .osK, .osK, .uriK,
   .mkdirK, .decideK, .writeK, .downloadK, .extractK, .emitK]

/-- The shapes of a completed existing-directory run, in order.  It differs
from `canonFresh` in the ledger block: the read precedes the write and the
decision follows it. -/
def canonElse : List EKind :=
  [.stderrK, .fetchK, .archK, .osK, .osK, .uriK,
   .readK, .writeK, .decideK, .downloadK, .extractK, .emitK]

end LapceD

namespace LapceD

/-! ### Sanity checks of the embedding -/

example : Version.parse "v0.0.0" = .ok Version.baseline := by decide
example : Version.parse "1.2.0" = .ok ⟨1, 2, 0, []⟩ := by decide
example : Version.parse "a.b.c" = .error "invalid digit" := by decide
example : (Version.parse "1.0.0-alpha.1").isOk = true := by decide
example : Version.ltb ⟨1, 2, 0, []⟩ ⟨2, 0, 0, []⟩ = true := by decide
example : Version.ltb ⟨1, 2, 0, []⟩ ⟨1, 2, 0, []⟩ = false := by decide
example : Version.ltb ⟨1, 0, 0, [.alpha "rc"]⟩ ⟨1, 0, 0, []⟩ = true := by decide
example : (pluginInit ⟨none⟩ env0).outcome = .ok := by decide
example : (pluginInit ⟨none⟩ env0).marker = some "1.0.0" := by decide

/-! ### Helper lemmas -/

set_option maxHeartbeats 1600000

/-- Line 45: the baseline literal parses to version 0.0.0. -/
theorem parse_v000 : Version.parse "v0.0.0" = .ok Version.baseline := by decide

/-- Appending to the fixed string `urn:` prepends its four characters. -/
theorem urn_toList (p : String) :
    ("urn:" ++ p).toList = 'u' :: 'r' :: 'n' :: ':' :: p.toList := by
  simp [String.toList, String.data_append]

/-- Line 70: the urn-wrapped override always parses as a URL. -/
theorem schemeOk_urn (p : String) : schemeOk ("urn:" ++ p) = true := by
  simp [schemeOk, urn_toList, List.takeWhile, List.contains]

/-- Lines 66-78: a run whose parameters carry a non-empty override server
path performs exactly one effect, starting the server at the urn-wrapped
override path, and leaves the marker file untouched. -/
theorem override_run (params : Params) (env : Env) (p : String)
    (h : override_path params = some p) :
    pluginInit params env =
      ⟨.ok, [.emit ("urn:" ++ p) (server_args params)], env.marker⟩ := by
  simp [pluginInit, parse_v000, h, Url.parse, schemeOk_urn]

/-- Lines 146-150: the archive extension is always zip or tar.xz, so the
fall-through extraction arm of lines 174-185 is unreachable. -/
theorem ext_of_ne (o : String) (h1 : ¬ext_of o = "zip") (h2 : ¬ext_of o = "tar.xz") :
    False := by
  unfold ext_of at h1 h2
  split at h1 <;> simp_all

/-! ### The claims -/

/-- C1: the update decision of a run that reaches the ledger block is true
exactly when the working directory did not previously exist, or when the
installed version recorded in the marker is greater than the remote tag
under semantic-version ordering; in particular installed 2.0.0 against
remote 1.2.0 decides true, 1.2.0 against 1.2.0 false, and 0.0.0 against
1.2.0 false when the directory exists. -/
theorem C1_update_decision (params : Params) (env : Env) (asset : GHAsset)
    (a o u si : String) (vi vr : Version)
    (hov : override_path params = none) (hm : env.metadata = .ok asset)
    (ha : resolve_arch env.architecture = .ok a)
    (ho : resolve_os env.operating_system = .ok o)
    (hu : env.uri = .ok u) (hs : schemeOk u = true)
    (ht : Version.parse asset.tag_name = .ok vr) :
    (env.dir_exists = false → Event.decide true ∈ (pluginInit params env).events)
    ∧ (env.dir_exists = true → env.marker = some si → Version.parse si = .ok vi →
        Event.decide (Version.ltb vr vi) ∈ (pluginInit params env).events)
    ∧ (ledger_step Version.baseline true (some "2.0.0") "1.2.0").outcome = .ok true
    ∧ (ledger_step Version.baseline true (some "1.2.0") "1.2.0").outcome = .ok false
    ∧ (ledger_step Version.baseline true (some "0.0.0") "1.2.0").outcome = .ok false := by
  refine ⟨?_, ?_, by decide, by decide, by decide⟩
  · intro hd
    simp only [pluginInit, parse_v000, hov, hm, ha, ho, hu, Url.parse, hs, if_true,
      ledger_step, hd]
    repeat' split
    all_goals simp_all
  · intro hd hmk hvi
    simp only [pluginInit, parse_v000, hov, hm, ha, ho, hu, Url.parse, hs, if_true,
      ledger_step, hd, hmk, hvi, ht]
    repeat' split
    all_goals simp_all

/-- C1 witness: in the existing-directory environment recording 2.0.0
against remote tag 1.0.0 the run decides an update. -/
theorem C1_witness :
    Event.decide true ∈ (pluginInit ⟨none⟩ envElse).events :=
  (C1_update_decision ⟨none⟩ envElse ⟨"1.0.0", []⟩ "x86_64" "linux" "file:///plugins/d/"
      "2.0.0" ⟨2, 0, 0, []⟩ ⟨1, 0, 0, []⟩ (by decide) (by decide) (by decide) (by decide)
      (by decide) (by decide) (by decide)).2.1 (by decide) (by decide) (by decide)

/-- C2: in every run that reaches the ledger with an existing working
directory and no marker file, the ledger read succeeds and resolves the
installed version to the baseline 0.0.0. -/
theorem C2_ledger_read (params : Params) (env : Env) (asset : GHAsset) (a o u : String)
    (hov : override_path params = none)
    (hm : env.metadata = .ok asset)
    (ha : resolve_arch env.architecture = .ok a)
    (ho : resolve_os env.operating_system = .ok o)
    (hu : env.uri = .ok u) (hs : schemeOk u = true)
    (hd : env.dir_exists = true) (hmk : env.marker = none) :
    Event.readLedger ⟨0, 0, 0, []⟩ ∈ (pluginInit params env).events := by
  simp only [pluginInit, parse_v000, hov, hm, ha, ho, hu, Url.parse, hs, if_true,
    ledger_step, hd, hmk, Bool.not_true]
  cases hv : Version.parse asset.tag_name with
  | error e => simp [hv, Version.baseline]
  | ok vr =>
    simp only [hv]
    repeat' split
    all_goals simp_all [Version.baseline]

/-- C2 witness: directory present, marker absent, remote tag 1.0.0. -/
theorem C2_witness :
    Event.readLedger ⟨0, 0, 0, []⟩
      ∈ (pluginInit ⟨none⟩ { env0 with dir_exists := true }).events :=
  C2_ledger_read ⟨none⟩ { env0 with dir_exists := true } ⟨"1.0.0", []⟩ "x86_64" "linux"
    "file:///plugins/d/" (by decide) (by decide) (by decide) (by decide) (by decide)
    (by decide) (by decide) (by decide)

/-- C3 counterexample: with override path `/usr/bin/serve-d` the emitted
executable locator is `urn:/usr/bin/serve-d`, not the override verbatim. -/
theorem C3_counterexample :
    (pluginInit paramsOverride env0).events
        = [.emit "urn:/usr/bin/serve-d" ["--require", "d", "--extra"]]
    ∧ "urn:/usr/bin/serve-d" ≠ "/usr/bin/serve-d" := by
  decide

/-- C3 (amended): when the initialization options carry a non-empty string
at lsp.serverPath, the run performs no network call and none of the
fetch/install pipeline — its only effect is emitting the launch descriptor —
and the emitted executable locator is `urn:` followed by the override value
verbatim. -/
theorem C3_override_short_circuit (params : Params) (env : Env) (p : String)
    (h : override_path params = some p) :
    (pluginInit params env).events = [.emit ("urn:" ++ p) (server_args params)]
    ∧ (pluginInit params env).outcome = .ok
    ∧ (pluginInit params env).marker = env.marker := by
  rw [override_run params env p h]
  exact ⟨rfl, rfl, rfl⟩

/-- C3 witness: the override run at the sample parameters. -/
theorem C3_witness :
    (pluginInit paramsOverride env0).events
      = [.emit ("urn:" ++ "/usr/bin/serve-d") (server_args paramsOverride)]
    ∧ (pluginInit paramsOverride env0).outcome = .ok
    ∧ (pluginInit paramsOverride env0).marker = env0.marker :=
  C3_override_short_circuit paramsOverride env0 "/usr/bin/serve-d" (by decide)

/-- C4 counterexample: a non-override run that reaches the ledger with an
unparseable existing marker aborts before the write, leaving the old marker
contents in place instead of the fetched tag 1.0.0. -/
theorem C4_counterexample :
    (pluginInit ⟨none⟩ envBadMarker).marker = some "not a version"
    ∧ (pluginInit ⟨none⟩ envBadMarker).outcome = .err "expected three version components"
    ∧ (pluginInit ⟨none⟩ envBadMarker).events.all (fun e => e.kind != EKind.writeK) = true
    ∧ Event.queryUri ∈ (pluginInit ⟨none⟩ envBadMarker).events := by
  decide

/-- C4 (amended): on every non-override run that reaches the ledger and
whose marker read succeeds (directory fresh, marker absent, or marker
parseable), the marker file is written with the fetched remote tag
verbatim, regardless of whether an update is performed, and the run ends
with the marker holding that tag. -/
theorem C4_marker_write (params : Params) (env : Env) (asset : GHAsset) (a o u : String)
    (hov : override_path params = none) (hm : env.metadata = .ok asset)
    (ha : resolve_arch env.architecture = .ok a)
    (ho : resolve_os env.operating_system = .ok o)
    (hu : env.uri = .ok u) (hs : schemeOk u = true)
    (hread : env.dir_exists = false ∨ env.marker = none
      ∨ ∃ s v, env.marker = some s ∧ Version.parse s = .ok v) :
    (pluginInit params env).marker = some asset.tag_name
    ∧ Event.writeLedger asset.tag_name ∈ (pluginInit params env).events := by
  obtain h | h | ⟨s, v, hms, hv⟩ := hread <;>
    simp only [pluginInit, parse_v000, hov, hm, ha, ho, hu, Url.parse, hs, if_true,
      ledger_step] <;>
    simp_all <;>
    repeat' split
  all_goals simp_all [Version.baseline]

/-- C4 witness: the existing-directory run with parseable marker 2.0.0. -/
theorem C4_witness :
    (pluginInit ⟨none⟩ envElse).marker = some "1.0.0"
    ∧ Event.writeLedger "1.0.0" ∈ (pluginInit ⟨none⟩ envElse).events :=
  C4_marker_write ⟨none⟩ envElse ⟨"1.0.0", []⟩ "x86_64" "linux" "file:///plugins/d/"
    (by decide) (by decide) (by decide) (by decide) (by decide) (by decide)
    (.inr (.inr ⟨"2.0.0", ⟨2, 0, 0, []⟩, by decide, by decide⟩))

/-- C5 counterexample: in a concrete full update run the metadata fetch
strictly precedes the architecture query (the claim orders platform
resolution first), and the ledger write strictly precedes the download
(the claim orders the write after download and extraction). -/
theorem C5_counterexample :
    (((pluginInit ⟨none⟩ envElse).events.map Event.kind).indexOf .fetchK
        < ((pluginInit ⟨none⟩ envElse).events.map Event.kind).indexOf .archK)
    ∧ (((pluginInit ⟨none⟩ envElse).events.map Event.kind).indexOf .writeK
        < ((pluginInit ⟨none⟩ envElse).events.map Event.kind).indexOf .downloadK)
    ∧ EKind.archK ∈ (pluginInit ⟨none⟩ envElse).events.map Event.kind
    ∧ EKind.downloadK ∈ (pluginInit ⟨none⟩ envElse).events.map Event.kind
    ∧ EKind.extractK ∈ (pluginInit ⟨none⟩ envElse).events.map Event.kind := by
  decide

/-- C5 (amended): every run performs its effects in a fixed order — stderr
note, metadata fetch, architecture query, the two OS queries, the uri
query, then the ledger block (directory creation, decision and write on a
fresh directory; read, write, decision on an existing one), then download
and extraction when updating, then the emit; in particular the metadata
fetch precedes platform resolution and the ledger write precedes the
download.  Every trace is a subsequence of one of the two canonical
orders. -/
theorem C5_pipeline_order (params : Params) (env : Env) :
    isSubseq ((pluginInit params env).events.map Event.kind) canonFresh = true
    ∨ isSubseq ((pluginInit params env).events.map Event.kind) canonElse = true := by
  simp only [pluginInit, parse_v000, ledger_step, fetch_install, Url.parse, ext_of,
    schemeOk_urn]
  repeat' split
  all_goals first
    | (left; simp_all [Event.kind, isSubseq, canonFresh]; done)
    | (right; simp_all [Event.kind, isSubseq, canonElse]; done)

/-- C6: the download URL is a pure function of tag, architecture token and
OS token following the documented pattern, with extension zip exactly for
the windows token and tar.xz otherwise; at (1.9.0, x86_64, linux) it is the
documented URL. -/
theorem C6_download_url :
    (∀ tag arch os, download_url tag arch os =
        "https://github.com/Pure-D/serve-d/releases/download/" ++ tag ++ "/serve-d_"
          ++ tag ++ "-" ++ arch ++ "-" ++ os ++ "."
          ++ (if os = "windows" then "zip" else "tar.xz"))
    ∧ (∀ os, ext_of os = if os = "windows" then "zip" else "tar.xz")
    ∧ download_url "1.9.0" "x86_64" "linux"
        = "https://github.com/Pure-D/serve-d/releases/download/1.9.0/serve-d_1.9.0-x86_64-linux.tar.xz" := by
  refine ⟨fun tag arch os => rfl, fun os => rfl, by decide⟩

/-- C7: platform resolution succeeds exactly on raw architecture x86_64 and
aarch64 (mapped to x86_64 and arm64) and raw OS macos, linux, windows
(mapped to themselves); every other raw value, and every error-returning
environment query, yields the terminal unsupported error, which aborts the
whole run with no fallback. -/
theorem C7_platform_resolution :
    (∀ r t, resolve_arch r = .ok t ↔
        (r = .ok "x86_64" ∧ t = "x86_64") ∨ (r = .ok "aarch64" ∧ t = "arm64"))
    ∧ (∀ r, r ≠ .ok "x86_64" → r ≠ .ok "aarch64" →
        resolve_arch r = .error "Unsupported architecture")
    ∧ (∀ r t, resolve_os r = .ok t ↔
        (r = .ok "macos" ∧ t = "macos") ∨ (r = .ok "linux" ∧ t = "linux")
          ∨ (r = .ok "windows" ∧ t = "windows"))
    ∧ (∀ r, r ≠ .ok "macos" → r ≠ .ok "linux" → r ≠ .ok "windows" →
        resolve_os r = .error "Unsupported platform")
    ∧ (∀ params env, override_path params = none → (∃ a, env.metadata = Except.ok a) →
        resolve_arch env.architecture = .error "Unsupported architecture" →
        (pluginInit params env).outcome = .err "Unsupported architecture")
    ∧ (∀ params env, override_path params = none → (∃ a, env.metadata = Except.ok a) →
        (∃ t, resolve_arch env.architecture = .ok t) →
        resolve_os env.operating_system = .error "Unsupported platform" →
        (pluginInit params env).outcome = .err "Unsupported platform") := by
  refine ⟨?_, ?_, ?_, ?_, ?_, ?_⟩
  · intro r t
    unfold resolve_arch
    split <;> (try split) <;> simp_all [eq_comm]
  · intro r h1 h2
    unfold resolve_arch
    split <;> (try split) <;> (first | rfl | simp_all)
  · intro r t
    unfold resolve_os
    split <;> (try split) <;> (try split) <;> simp_all [eq_comm]
  · intro r h1 h2 h3
    unfold resolve_os
    split <;> (try split) <;> (try split) <;> (first | rfl | simp_all)
  · intro params env hov hex harch
    obtain ⟨a, hm⟩ := hex
    simp [pluginInit, parse_v000, hov, hm, harch]
  · intro params env hov hex het hos
    obtain ⟨a, hm⟩ := hex
    obtain ⟨t, ht⟩ := het
    simp [pluginInit, parse_v000, hov, hm, ht, hos]

/-- C7 witness: an unknown architecture token and a failing architecture
query. -/
theorem C7_witness :
    resolve_arch (.ok "mips") = .error "Unsupported architecture"
    ∧ (pluginInit ⟨none⟩ { env0 with architecture := .error "env query failed" }).outcome
        = .err "Unsupported architecture" :=
  ⟨C7_platform_resolution.2.1 (.ok "mips") (by decide) (by decide),
   C7_platform_resolution.2.2.2.2.1 ⟨none⟩ { env0 with architecture := .error "env query failed" }
     (by decide) ⟨⟨"1.0.0", []⟩, by decide⟩ (by decide)⟩

/-- C8: whenever the archive GET answers with a status other than 200, a
run that performed that download ends with the fatal error carrying the
status code, and no extraction is attempted. -/
theorem C8_download_failure (params : Params) (env : Env) (resp : HttpResp)
    (hr : env.archive = .ok resp) (h200 : resp.status_code ≠ 200) :
    (∀ u, Event.download u ∈ (pluginInit params env).events →
      (pluginInit params env).outcome
        = .err ("Fetching archive failed with error " ++ toString resp.status_code))
    ∧ Event.extract ∉ (pluginInit params env).events := by
  simp only [pluginInit, parse_v000, ledger_step, fetch_install, Url.parse, hr]
  repeat' split
  all_goals simp_all

/-- C8 witness: the 404 run downloads, fails with the status in the
message, and never extracts. -/
theorem C8_witness :
    Event.extract ∉ (pluginInit ⟨none⟩ env404).events
    ∧ (pluginInit ⟨none⟩ env404).outcome
        = .err ("Fetching archive failed with error " ++ toString 404) :=
  ⟨(C8_download_failure ⟨none⟩ env404 ⟨404, .ok ()⟩ (by decide) (by decide)).2,
   (C8_download_failure ⟨none⟩ env404 ⟨404, .ok ()⟩ (by decide) (by decide)).1
      (download_url "1.0.0" "x86_64" "linux") (by decide)⟩

/-- C9: every emitted argument vector is the fixed base list followed by
the string entries of lsp.serverArgs in their original order, with
non-string entries silently skipped. -/
theorem C9_args (params : Params) (env : Env) (p : String) (a : List String)
    (h : Event.emit p a ∈ (pluginInit params env).events) :
    a = ["--require", "d"] ++ extra_args params
    ∧ (∀ lsp entries, lsp_options params = some lsp →
        lsp.get "serverArgs" = some (.arr entries) →
        a = ["--require", "d"] ++ entries.filterMap Json.asStr) := by
  have hargs : a = server_args params := by
    simp only [pluginInit, parse_v000, ledger_step, fetch_install, Url.parse] at h
    repeat' split at h
    all_goals simp_all
  constructor
  · simp [hargs, server_args, base_args]
  · intro lsp entries h1 h2
    simp [hargs, server_args, base_args, extra_args, h1, h2, Json.asArray]

/-- C9 witness: the override run with one string and one non-string entry
emits the base list followed by the string entry only. -/
theorem C9_witness :
    ["--require", "d", "--extra"] = ["--require", "d"] ++ extra_args paramsOverride :=
  (C9_args paramsOverride env0 "urn:/usr/bin/serve-d" ["--require", "d", "--extra"]
    (by decide)).1

/-- C10: installation is not atomic with respect to the ledger — when a run
decides an update and the archive fetch errors, answers non-200, or
extraction fails, the run ends in an error while the marker file already
holds the freshly fetched remote tag. -/
theorem C10_nonatomic (params : Params) (env : Env) (asset : GHAsset) (e : String)
    (resp : HttpResp)
    (hov : override_path params = none) (hm : env.metadata = .ok asset)
    (hdec : Event.decide true ∈ (pluginInit params env).events)
    (hfail : env.archive = .error e
      ∨ (env.archive = .ok resp ∧ resp.status_code ≠ 200)
      ∨ (env.archive = .ok resp ∧ resp.status_code = 200 ∧ resp.body_read = .ok ()
          ∧ env.zip_open_ok = true ∧ env.extract_ok = .error e)) :
    (∃ m, (pluginInit params env).outcome = .err m)
    ∧ (pluginInit params env).marker = some asset.tag_name := by
  obtain hf | ⟨hf, hs⟩ | ⟨hf, hs, hb, hz, hx⟩ := hfail
  all_goals simp only [pluginInit, parse_v000, ledger_step, fetch_install, Url.parse, hov,
    hm, hf] at hdec ⊢
  all_goals repeat' split at hdec
  all_goals try simp_all
  all_goals exact ext_of_ne _ (by assumption) (by assumption)

/-- C10 witness: the 404 run errors while the marker already records the
fetched tag 1.0.0 in place of the previously installed 2.0.0. -/
theorem C10_witness :
    (∃ m, (pluginInit ⟨none⟩ env404).outcome = .err m)
    ∧ (pluginInit ⟨none⟩ env404).marker = some "1.0.0" :=
  C10_nonatomic ⟨none⟩ env404 ⟨"1.0.0", []⟩ "" ⟨404, .ok ()⟩ (by decide) (by decide)
    (by decide) (.inr (.inl ⟨by decide, by decide⟩))

end LapceD
